import Mathlib

/-!
Shallow embedding of the `arc` CLI window commands (src/window.go),
centred on the focused-window-creation protocol `windowCreateWithFocus`
and the close command `NewCmdWindowClose`.
-/

namespace ArcSpec

/-! ### StringEscaper (src/window.go lines 106-107)

`strings.ReplaceAll(search, `\`, `\\`)` followed by
`strings.ReplaceAll(escaped, `"`, `\"`)`.  Both patterns are a single
character, so Go's left-to-right non-overlapping replacement is exactly a
per-character rewrite of the rune sequence, modelled on `List Char`. -/

/-- First escaping step: every backslash is doubled
(`strings.ReplaceAll(search, backslash, two backslashes)`). -/
def escB : List Char → List Char
  | [] => []
  | c :: cs => if c = '\\' then '\\' :: '\\' :: escB cs else c :: escB cs

/-- Second escaping step: every double quote is prefixed with a backslash
(`strings.ReplaceAll(escaped, quote, backslash-quote)`). -/
def escQ : List Char → List Char
  | [] => []
  | c :: cs => if c = '"' then '\\' :: '"' :: escQ cs else c :: escQ cs

/-- The escape routine of src/window.go lines 106-107: double backslashes,
then prefix quotes. -/
def escape (s : String) : String := ⟨escQ (escB s.data)⟩

/-- Inverse of `escQ`: each backslash-quote pair collapses to a quote,
scanning left to right over non-overlapping occurrences. -/
def unescQ : List Char → List Char
  | [] => []
  | [c] => [c]
  | c :: d :: cs =>
    if c = '\\' ∧ d = '"' then '"' :: unescQ cs else c :: unescQ (d :: cs)

/-- Inverse of `escB`: each doubled backslash collapses to one backslash,
scanning left to right over non-overlapping occurrences. -/
def unescB : List Char → List Char
  | [] => []
  | [c] => [c]
  | c :: d :: cs =>
    if c = '\\' ∧ d = '\\' then '\\' :: unescB cs else c :: unescB (d :: cs)

/-- The unescape routine described by the spec: undo the quote step first,
then the backslash step (reverse order of `escape`). -/
def unescape (s : String) : String := ⟨unescB (unescQ s.data)⟩

lemma escQ_ne_quote_head (t r : List Char) : escQ t ≠ '"' :: r := by
  cases t with
  | nil => simp [escQ]
  | cons c cs =>
    by_cases hc : c = '"' <;> simp [escQ, hc]

lemma unescQ_escQ (l : List Char) : unescQ (escQ l) = l := by
  induction l with
  | nil => rfl
  | cons c cs ih =>
    by_cases hc : c = '"'
    · subst hc
      simp [escQ, unescQ, ih]
    · rw [show escQ (c :: cs) = c :: escQ cs by simp [escQ, hc]]
      cases hE : escQ cs with
      | nil =>
        rw [hE] at ih
        simp only [unescQ] at ih
        rw [← ih]
        rfl
      | cons d ds =>
        have hd : ¬(c = '\\' ∧ d = '"') := by
          rintro ⟨-, rfl⟩
          exact escQ_ne_quote_head cs ds hE
        rw [unescQ, if_neg hd, ← hE, ih]

lemma unescB_cons (c : Char) (r : List Char) (hc : c ≠ '\\') :
    unescB (c :: r) = c :: unescB r := by
  cases r with
  | nil => rfl
  | cons d ds =>
    rw [unescB, if_neg]
    rintro ⟨rfl, -⟩
    exact hc rfl

lemma unescB_escB (l : List Char) : unescB (escB l) = l := by
  induction l with
  | nil => rfl
  | cons c cs ih =>
    by_cases hc : c = '\\'
    · subst hc
      simp [escB, unescB, ih]
    · rw [show escB (c :: cs) = c :: escB cs by simp [escB, hc],
        unescB_cons c _ hc, ih]

/-- C2: for every input string `s`, `unescape (escape s) = s`: escaping
doubles backslashes then prefixes quotes, and unescaping reverses both
steps in the opposite order. -/
theorem escape_roundtrip (s : String) : unescape (escape s) = s := by
  cases s with
  | mk data =>
    simp only [escape, unescape, unescQ_escQ, unescB_escB]

/-! ### ProcessStateProbe (src/window.go lines 94-98)

```
wasRunning := true
out, err := runApplescript(`application "Arc" is running`)
if err == nil && strings.TrimSpace(string(out)) == "false" {
    wasRunning = false
}
```
An executor result is `Except String String`: `.error e` is a transport
error from `runApplescript`, `.ok out` its raw output. -/

/-- Models Go `strings.TrimSpace`: drop whitespace from both ends. -/
def trimSpace (s : String) : String :=
  ⟨((s.data.dropWhile Char.isWhitespace).reverse.dropWhile
      Char.isWhitespace).reverse⟩

/-- The `wasRunning` computation of src/window.go lines 94-98. -/
def wasRunningOf (probeRes : Except String String) : Bool :=
  match probeRes with
  | Except.ok out => !(trimSpace out = "false" : Bool)
  | Except.error _ => true

/-! ### ResultInterpreter and the not-found message (lines 154-158)

`fmt.Errorf("no tab found with title containing %q", search)`. -/

/-- Lower-case hexadecimal digit, as used by Go's escape sequences. -/
def hexDigit (n : Nat) : Char :=
  if n < 10 then Char.ofNat ('0'.toNat + n) else Char.ofNat ('a'.toNat + (n - 10))

/-- Two lower-case hexadecimal digits of a byte, as in Go's `\xhh`. -/
def hexByte (n : Nat) : List Char := [hexDigit (n / 16), hexDigit (n % 16)]

/-- Models Go `fmt` verb `%q` (`strconv.Quote`) on one rune: backslash
and double quote are backslash-escaped, printable ASCII passes through,
the named control escapes render as `\a \b \f \n \r \t \v`, any other
ASCII control byte as `\xhh`.  Non-ASCII printable runes pass through;
Go additionally `\u`-escapes non-printable non-ASCII runes, which this
model leaves untouched — no theorem below exercises that range. -/
def goQuoteChar (c : Char) : List Char :=
  if c = '\\' then ['\\', '\\']
  else if c = '"' then ['\\', '"']
  else if 0x20 ≤ c.toNat ∧ c.toNat ≤ 0x7E then [c]
  else if c = '\x07' then ['\\', 'a']
  else if c = '\x08' then ['\\', 'b']
  else if c = '\x0C' then ['\\', 'f']
  else if c = '\n' then ['\\', 'n']
  else if c = '\r' then ['\\', 'r']
  else if c = '\t' then ['\\', 't']
  else if c = '\x0B' then ['\\', 'v']
  else if c.toNat < 0x80 then '\\' :: 'x' :: hexByte c.toNat
  else [c]

/-- `goQuoteChar` applied across a rune sequence. -/
def goQuoteData : List Char → List Char
  | [] => []
  | c :: cs => goQuoteChar c ++ goQuoteData cs

/-- Models Go `fmt` verb `%q` (`strconv.Quote`): wrap in double quotes
and escape each rune with `goQuoteChar`. -/
def goQuote (s : String) : String := ⟨'"' :: goQuoteData s.data ++ ['"']⟩

/-- The not-found error text of src/window.go line 155. -/
def notFoundMsg (search : String) : String :=
  "no tab found with title containing " ++ goQuote search

/-- The result interpretation of src/window.go lines 154-158: the trimmed
primary output equal to `not_found` yields the not-found error, anything
else is success. -/
def interpretResult (search output : String) : Option String :=
  if trimSpace output = "not_found" then some (notFoundMsg search) else none

/-! ### The focused-window-creation operation (src/window.go lines 92-159)

The three `runApplescript` payloads the operation can issue, in source
order: the probe (line 95), the primary creation/search script (line 136)
and the cleanup script (line 144).  The executor is an oracle
`Payload → Except String String`; the operation returns the error it
surfaces to the caller (`none` = success) together with the ordered list
of payloads it issued. -/

inductive Payload where
  | probe : Payload
  | primary (incognito : Bool) (escaped : String) : Payload
  | cleanup : Payload
deriving DecidableEq

/-- `windowCreateWithFocus` (src/window.go lines 92-159): probe, compose
and run the primary payload, run cleanup when Arc was not running, then
interpret the primary output. -/
def windowCreateWithFocus (exec : Payload → Except String String)
    (incognito : Bool) (search : String) : Option String × List Payload :=
  let wasRunning := wasRunningOf (exec Payload.probe)
  let escaped := escape search
  match exec (Payload.primary incognito escaped) with
  | Except.error e => (some e, [Payload.probe, Payload.primary incognito escaped])
  | Except.ok output =>
    if wasRunning then
      (interpretResult search output,
        [Payload.probe, Payload.primary incognito escaped])
    else
      match exec Payload.cleanup with
      | Except.error e =>
        (some e,
          [Payload.probe, Payload.primary incognito escaped, Payload.cleanup])
      | Except.ok _ =>
        (interpretResult search output,
          [Payload.probe, Payload.primary incognito escaped, Payload.cleanup])

/-- C3: `wasRunning` is true unless the probe both succeeded and returned
a trimmed value equal to the literal `false`; in particular any probe
error yields `wasRunning = true`. -/
theorem probe_conservative (r : Except String String) :
    (wasRunningOf r = true ↔ ¬∃ out, r = Except.ok out ∧ trimSpace out = "false")
    ∧ (∀ e, r = Except.error e → wasRunningOf r = true) := by
  constructor
  · cases r with
    | error e => simp [wasRunningOf]
    | ok out =>
      by_cases h : trimSpace out = "false" <;> simp [wasRunningOf, h]
  · rintro e rfl
    rfl

/-- Witness for `probe_conservative` at a concrete probe error. -/
theorem probe_conservative_witness :
    wasRunningOf (Except.error "connection refused") = true :=
  (probe_conservative (Except.error "connection refused")).2
    "connection refused" rfl

/-- C1: when the primary payload completes, cleanup is issued iff the
probe set `wasRunning = false`; it then appears in the issued trace
directly after the primary payload, whatever the primary output was, and
before the call returns. -/
theorem cleanup_gating (exec : Payload → Except String String)
    (incognito : Bool) (search output : String)
    (h : exec (Payload.primary incognito (escape search)) = Except.ok output) :
    ((windowCreateWithFocus exec incognito search).2 =
      if wasRunningOf (exec Payload.probe) then
        [Payload.probe, Payload.primary incognito (escape search)]
      else
        [Payload.probe, Payload.primary incognito (escape search),
          Payload.cleanup])
    ∧ (Payload.cleanup ∈ (windowCreateWithFocus exec incognito search).2 ↔
        wasRunningOf (exec Payload.probe) = false) := by
  simp only [windowCreateWithFocus, h]
  cases hw : wasRunningOf (exec Payload.probe) with
  | true => simp
  | false =>
    cases hcl : exec Payload.cleanup with
    | error e => simp
    | ok o => simp

/-- Concrete executor: probe reports Arc not running, the search finds a
tab, cleanup succeeds. -/
def execGate : Payload → Except String String
  | Payload.probe => Except.ok "false"
  | Payload.primary _ _ => Except.ok "found"
  | Payload.cleanup => Except.ok ""

/-- Witness for `cleanup_gating` on a cold launch with a found tab. -/
theorem cleanup_gating_witness :
    ((windowCreateWithFocus execGate false "g").2 =
      if wasRunningOf (execGate Payload.probe) then
        [Payload.probe, Payload.primary false (escape "g")]
      else
        [Payload.probe, Payload.primary false (escape "g"), Payload.cleanup])
    ∧ (Payload.cleanup ∈ (windowCreateWithFocus execGate false "g").2 ↔
        wasRunningOf (execGate Payload.probe) = false) :=
  cleanup_gating execGate false "g" "found" rfl

/-- C9: a transport error of the primary payload is returned verbatim;
the cleanup payload is not issued, even when `wasRunning = false`. -/
theorem primary_error_propagation (exec : Payload → Except String String)
    (incognito : Bool) (search e : String)
    (h : exec (Payload.primary incognito (escape search)) = Except.error e) :
    windowCreateWithFocus exec incognito search =
      (some e, [Payload.probe, Payload.primary incognito (escape search)]) := by
  simp only [windowCreateWithFocus, h]

/-- Concrete executor: probe reports Arc not running, every later payload
fails with a transport error. -/
def execDown : Payload → Except String String
  | Payload.probe => Except.ok "false"
  | _ => Except.error "osascript: connection failed"

/-- Witness for `primary_error_propagation` on a failing host. -/
theorem primary_error_propagation_witness :
    windowCreateWithFocus execDown true "g" =
      (some "osascript: connection failed",
        [Payload.probe, Payload.primary true (escape "g")]) :=
  primary_error_propagation execDown true "g" "osascript: connection failed" rfl

/-- C10: when `wasRunning = false` and the cleanup payload fails, the
cleanup error is returned, shadowing the search result — even a
`not_found` primary output produces no not-found error. -/
theorem cleanup_error_shadows (exec : Payload → Except String String)
    (incognito : Bool) (search output e : String)
    (hp : exec (Payload.primary incognito (escape search)) = Except.ok output)
    (hw : wasRunningOf (exec Payload.probe) = false)
    (hc : exec Payload.cleanup = Except.error e) :
    windowCreateWithFocus exec incognito search =
      (some e,
        [Payload.probe, Payload.primary incognito (escape search),
          Payload.cleanup]) := by
  simp only [windowCreateWithFocus, hp, hw, hc]
  simp

/-- Concrete executor: cold launch, search exhausts all attempts, cleanup
fails. -/
def execShadow : Payload → Except String String
  | Payload.probe => Except.ok "false"
  | Payload.primary _ _ => Except.ok "not_found"
  | Payload.cleanup => Except.error "cleanup failed"

/-- Witness for `cleanup_error_shadows`: the cleanup error is returned
although the primary output was `not_found`. -/
theorem cleanup_error_shadows_witness :
    windowCreateWithFocus execShadow false "g" =
      (some "cleanup failed",
        [Payload.probe, Payload.primary false (escape "g"), Payload.cleanup]) :=
  cleanup_error_shadows execShadow false "g" "not_found" "cleanup failed"
    rfl rfl rfl

/-- C5: the interpreter yields an error iff the trimmed output equals
`not_found`; that error is the not-found message, and every other output
(including `found` and unrecognized values) is success. -/
theorem interpreter_not_found (search output : String) :
    ((∃ e, interpretResult search output = some e) ↔ trimSpace output = "not_found")
    ∧ (trimSpace output = "not_found" →
        interpretResult search output = some (notFoundMsg search))
    ∧ (trimSpace output ≠ "not_found" → interpretResult search output = none) := by
  by_cases h : trimSpace output = "not_found" <;> simp [interpretResult, h]

/-- Witness for `interpreter_not_found`: an unrecognized output is treated
as success. -/
theorem interpreter_not_found_witness :
    interpretResult "x" "weird output" = none :=
  (interpreter_not_found "x" "weird output").2.2 (by decide)

/-! ### Error propagation (C8) -/

/-- Concrete executor: the probe itself fails, everything else works. -/
def execProbeFail : Payload → Except String String
  | Payload.probe => Except.error "probe transport failure"
  | Payload.primary _ _ => Except.ok "found"
  | Payload.cleanup => Except.ok ""

/-- C8 counterexample: the probe call errors, yet the operation returns
success — the probe error is discarded, not propagated. -/
theorem probe_error_swallowed :
    execProbeFail Payload.probe = Except.error "probe transport failure"
    ∧ (windowCreateWithFocus execProbeFail false "x").1 = none :=
  ⟨rfl, rfl⟩

/-- C8 amended: errors of the primary and of the cleanup executor calls
are propagated to the caller; the probe call's error is deliberately
absorbed into `wasRunning = true`. -/
theorem error_propagation (exec : Payload → Except String String)
    (incognito : Bool) (search : String) :
    (∀ e, exec (Payload.primary incognito (escape search)) = Except.error e →
        (windowCreateWithFocus exec incognito search).1 = some e)
    ∧ (∀ output e,
        exec (Payload.primary incognito (escape search)) = Except.ok output →
        wasRunningOf (exec Payload.probe) = false →
        exec Payload.cleanup = Except.error e →
        (windowCreateWithFocus exec incognito search).1 = some e) := by
  constructor
  · intro e h
    simp only [windowCreateWithFocus, h]
  · intro output e hp hw hc
    simp only [windowCreateWithFocus, hp, hw, hc]
    simp

/-- Witness for `error_propagation`: a primary transport error reaches
the caller. -/
theorem error_propagation_witness :
    (windowCreateWithFocus execDown true "g").1 =
      some "osascript: connection failed" :=
  (error_propagation execDown true "g").1 "osascript: connection failed" rfl

/-! ### Not-found message fidelity (C4) -/

/-- Concrete executor: Arc already running, the search exhausts all
attempts. -/
def execNotFound : Payload → Except String String
  | Payload.probe => Except.ok "true"
  | Payload.primary _ _ => Except.ok "not_found"
  | Payload.cleanup => Except.ok ""

/-- C4 counterexample: for the search string `a"b` the operation fails
with the not-found error, but the error text does not contain the raw
search string — `%q` renders it with a Go-escaped quote. -/
theorem notfound_fidelity_counterexample :
    (windowCreateWithFocus execNotFound false "a\"b").1 =
      some (notFoundMsg "a\"b")
    ∧ ¬ ("a\"b".data <:+: (notFoundMsg "a\"b").data) :=
  ⟨rfl, by decide⟩

lemma goQuoteData_id (l : List Char)
    (h : ∀ c ∈ l, c ≠ '\\' ∧ c ≠ '"' ∧ 0x20 ≤ c.toNat ∧ c.toNat ≤ 0x7E) :
    goQuoteData l = l := by
  induction l with
  | nil => rfl
  | cons c cs ih =>
    have hc := h c (List.mem_cons_self c cs)
    rw [goQuoteData, goQuoteChar, if_neg hc.1, if_neg hc.2.1, if_pos hc.2.2,
      ih fun d hd => h d (List.mem_cons_of_mem c hd)]
    rfl

/-- C4 amended: when the not-found error is surfaced, its text contains
the original search string verbatim provided the search string consists
of printable ASCII characters other than backslash and double quote;
otherwise only the `%q`-escaped form appears (see
`notfound_fidelity_counterexample`). -/
theorem notfound_fidelity (exec : Payload → Except String String)
    (incognito : Bool) (s output : String)
    (hp : exec (Payload.primary incognito (escape s)) = Except.ok output)
    (hw : wasRunningOf (exec Payload.probe) = true)
    (hnf : trimSpace output = "not_found")
    (hs : ∀ c ∈ s.data, c ≠ '\\' ∧ c ≠ '"' ∧ 0x20 ≤ c.toNat ∧ c.toNat ≤ 0x7E) :
    (windowCreateWithFocus exec incognito s).1 = some (notFoundMsg s)
    ∧ s.data <:+: (notFoundMsg s).data := by
  constructor
  · simp only [windowCreateWithFocus, hp, hw, interpretResult, hnf]
    simp
  · refine ⟨"no tab found with title containing ".data ++ ['"'], ['"'], ?_⟩
    simp [notFoundMsg, goQuote, goQuoteData_id s.data hs, String.data_append]

/-- Witness for `notfound_fidelity` at search string `Gmail`. -/
theorem notfound_fidelity_witness :
    (windowCreateWithFocus execNotFound false "Gmail").1 =
      some (notFoundMsg "Gmail")
    ∧ "Gmail".data <:+: (notFoundMsg "Gmail").data :=
  notfound_fidelity execNotFound false "Gmail" "not_found" rfl rfl rfl
    (by decide)

/-! ### The composed retry loop (src/window.go lines 109-134)

Semantics of the AppleScript text built by `windowCreateWithFocus` and
evaluated inside the automation host: `delay 1`, then up to
`maxRetries := 10` scans over the front window's tabs, with `delay 0.5`
between attempts (`if attempt < maxRetries then delay 0.5`).  A tab is
`Option String`: `none` models a tab whose title read fails, which the
script's `try` block skips.  Time units are exact rationals. -/

/-- `set maxRetries to 10` (src/window.go line 112). -/
def maxRetries : Nat := 10

/-- The `delay 1` settle delay after window creation (line 111). -/
def initialDelay : ℚ := 1

/-- The `delay 0.5` applied between attempts (line 130). -/
def interAttemptDelay : ℚ := 1 / 2

/-- `ignoring case / if tabTitle contains needle` (lines 119-120):
case-insensitive substring test of the (escaped) search string against a
tab title. -/
def titleMatches (needle title : String) : Bool :=
  decide (needle.toLower.data <:+: title.toLower.data)

/-- One attempt's scan over the front window's tabs (lines 116-128): a
failed title read (`none`) is skipped, the first readable matching title
ends the scan. -/
def scanAttempt (needle : String) : List (Option String) → Bool
  | [] => false
  | none :: ts => scanAttempt needle ts
  | some t :: ts => titleMatches needle t || scanAttempt needle ts

/-- The `repeat with attempt from 1 to maxRetries` loop (lines 113-131):
`tabs a` is the front window's tab state when attempt `a` runs; the
result is the sentinel returned by the script together with the total
time spent in `delay` statements. -/
def hostAttempts (needle : String) (tabs : Nat → List (Option String)) :
    Nat → Nat → ℚ → String × ℚ
  | 0, _, waited => ("not_found", waited)
  | fuel + 1, attempt, waited =>
    if scanAttempt needle (tabs attempt) then ("found", waited)
    else
      hostAttempts needle tabs fuel (attempt + 1)
        (if attempt < maxRetries then waited + interAttemptDelay else waited)

/-- The whole composed payload (lines 109-134): settle `delay 1`, then
the bounded retry loop. -/
def hostRun (needle : String) (tabs : Nat → List (Option String)) :
    String × ℚ :=
  hostAttempts needle tabs maxRetries 1 initialDelay

lemma hostAttempts_no_match (needle : String)
    (tabs : Nat → List (Option String)) :
    ∀ fuel attempt waited, attempt + fuel = maxRetries + 1 →
    (∀ a, attempt ≤ a → a ≤ maxRetries → scanAttempt needle (tabs a) = false) →
    hostAttempts needle tabs fuel attempt waited =
      ("not_found", waited + ((fuel - 1 : ℕ) : ℚ) * interAttemptDelay) := by
  intro fuel
  induction fuel with
  | zero =>
    intro attempt waited hsum h
    simp [hostAttempts]
  | succ f ih =>
    intro attempt waited hsum h
    have hattempt : attempt ≤ maxRetries := by omega
    have hscan := h attempt le_rfl hattempt
    rw [hostAttempts, hscan]
    rcases Nat.eq_zero_or_pos f with hf | hf
    · subst hf
      have hlast : ¬ attempt < maxRetries := by omega
      rw [if_neg (by simp), if_neg hlast, hostAttempts]
      simp
    · have hlt : attempt < maxRetries := by omega
      rw [if_neg (by simp), if_pos hlt,
        ih (attempt + 1) (waited + interAttemptDelay) (by omega)
          (fun a ha1 ha2 => h a (by omega) ha2)]
      have hcast : ((f - 1 : ℕ) : ℚ) = (f : ℚ) - 1 := by
        rw [Nat.cast_sub hf]
        simp
      have hcast2 : ((f + 1 - 1 : ℕ) : ℚ) = (f : ℚ) := by simp
      rw [hcast, hcast2]
      rw [Prod.mk.injEq]
      constructor
      · rfl
      · ring

/-- C6: when no attempt's scan matches, the composed payload returns the
`not_found` sentinel after a total wait of exactly
`initialDelay + (maxRetries - 1) * interAttemptDelay = 11/2` time units,
whatever the tab lists scanned on each attempt were. -/
theorem retry_worst_case (needle : String)
    (tabs : Nat → List (Option String))
    (h : ∀ a, 1 ≤ a → a ≤ maxRetries → scanAttempt needle (tabs a) = false) :
    hostRun needle tabs =
      ("not_found", initialDelay + ((maxRetries : ℚ) - 1) * interAttemptDelay)
    ∧ initialDelay + ((maxRetries : ℚ) - 1) * interAttemptDelay = 11 / 2 := by
  constructor
  · rw [hostRun,
      hostAttempts_no_match needle tabs maxRetries 1 initialDelay
        (by norm_num [maxRetries]) h]
    norm_num [maxRetries]
  · norm_num [maxRetries, initialDelay, interAttemptDelay]

/-- Witness for `retry_worst_case`: a host whose front window never
shows any tab. -/
theorem retry_worst_case_witness :
    hostRun "x" (fun _ => []) =
      ("not_found", initialDelay + ((maxRetries : ℚ) - 1) * interAttemptDelay)
    ∧ initialDelay + ((maxRetries : ℚ) - 1) * interAttemptDelay = 11 / 2 :=
  retry_worst_case "x" (fun _ => []) (fun _ _ _ => rfl)

/-! ### The close command (src/window.go lines 218-247)

Zero arguments close the front window; otherwise each argument is parsed
with `strconv.Atoi` and one close payload is issued per parsed
identifier, returning at the first parse or transport failure. -/

inductive ClosePayload where
  | front : ClosePayload
  | window (id : Int) : ClosePayload
deriving DecidableEq

/-- Accumulator pass of the decimal parse: fails on the first non-digit
character. -/
def digitsValAux : List Char → Nat → Option Nat
  | [], acc => some acc
  | c :: cs, acc =>
    if c.isDigit then digitsValAux cs (10 * acc + (c.toNat - '0'.toNat))
    else none

/-- Decimal digit-run value; `none` on the empty run or any non-digit. -/
def digitsVal : List Char → Option Nat
  | [] => none
  | ds => digitsValAux ds 0

/-- The message of the `*strconv.NumError` carrying `ErrSyntax`,
propagated verbatim by the close command. -/
def parseErrMsg (s : String) : String :=
  "strconv.Atoi: parsing " ++ goQuote s ++ ": invalid syntax"

/-- The message of the `*strconv.NumError` carrying `ErrRange`. -/
def rangeErrMsg (s : String) : String :=
  "strconv.Atoi: parsing " ++ goQuote s ++ ": value out of range"

/-- Largest Go `int` on a 64-bit platform, where `strconv.Atoi` is
`ParseInt(s, 10, 0)` over `int64`. -/
def maxGoInt : Int := 2 ^ 63 - 1

/-- Smallest Go `int` on a 64-bit platform. -/
def minGoInt : Int := -(2 ^ 63)

/-- Models Go `strconv.Atoi`: an optional sign followed by at least one
decimal digit, anything else failing with `ErrSyntax`; a value outside
the 64-bit `int` range fails with `ErrRange`. -/
def atoi (s : String) : Except String Int :=
  let parsed : Option Int :=
    match s.data with
    | '+' :: ds => (digitsVal ds).map fun n => (n : Int)
    | '-' :: ds => (digitsVal ds).map fun n => -(n : Int)
    | ds => (digitsVal ds).map fun n => (n : Int)
  match parsed with
  | none => Except.error (parseErrMsg s)
  | some v =>
    if v < minGoInt ∨ maxGoInt < v then Except.error (rangeErrMsg s)
    else Except.ok v

/-- The `for _, id := range args` loop of src/window.go lines 231-241,
accumulating the issued close payloads (most recent first). -/
def closeGo (exec : ClosePayload → Except String String) :
    List String → List ClosePayload → Option String × List ClosePayload
  | [], acc => (none, acc.reverse)
  | s :: rest, acc =>
    match atoi s with
    | Except.error e => (some e, acc.reverse)
    | Except.ok n =>
      match exec (ClosePayload.window n) with
      | Except.error e => (some e, (ClosePayload.window n :: acc).reverse)
      | Except.ok _ => closeGo exec rest (ClosePayload.window n :: acc)

/-- The close command body (src/window.go lines 223-242): no arguments
closes the front window, otherwise the identifiers are processed in
order. -/
def runClose (exec : ClosePayload → Except String String)
    (args : List String) : Option String × List ClosePayload :=
  match args with
  | [] =>
    match exec ClosePayload.front with
    | Except.error e => (some e, [ClosePayload.front])
    | Except.ok _ => (none, [ClosePayload.front])
  | _ :: _ => closeGo exec args []

lemma runClose_ne_nil (exec : ClosePayload → Except String String)
    (args : List String) (h : args ≠ []) :
    runClose exec args = closeGo exec args [] := by
  cases args with
  | nil => exact absurd rfl h
  | cons a l => rfl

lemma closeGo_ok_prefix (exec : ClosePayload → Except String String)
    (hok : ∀ n, ∃ o, exec (ClosePayload.window n) = Except.ok o) :
    ∀ pre rest acc, (∀ s ∈ pre, ∃ n, atoi s = Except.ok n) →
    closeGo exec (pre ++ rest) acc =
      closeGo exec rest
        ((pre.filterMap fun s =>
            (atoi s).toOption.map ClosePayload.window).reverse
          ++ acc) := by
  intro pre
  induction pre with
  | nil =>
    intro rest acc _
    simp
  | cons s pre' ih =>
    intro rest acc h
    obtain ⟨n, hn⟩ := h s (List.mem_cons_self s pre')
    obtain ⟨o, ho⟩ := hok n
    simp only [List.cons_append, closeGo, hn, ho, List.append_eq]
    rw [ih rest (ClosePayload.window n :: acc)
      fun t ht => h t (List.mem_cons_of_mem s ht)]
    simp [hn, Except.toOption]

/-- C7: with zero identifiers the close command issues exactly one close
of the front window; with identifiers it issues one close per
successfully parsed identifier in order, and the first parse failure
(invalid syntax or out-of-range) aborts the command with that error —
earlier closes stay issued and no close is issued for the failing
identifier or any later one. -/
theorem close_failfast (exec : ClosePayload → Except String String)
    (hok : ∀ n, ∃ o, exec (ClosePayload.window n) = Except.ok o) :
    ((runClose exec []).2 = [ClosePayload.front])
    ∧ (∀ pre bad err rest, (∀ s ∈ pre, ∃ n, atoi s = Except.ok n) →
        atoi bad = Except.error err →
        runClose exec (pre ++ bad :: rest) =
          (some err,
            pre.filterMap fun s =>
              (atoi s).toOption.map ClosePayload.window))
    ∧ (∀ args, args ≠ [] → (∀ s ∈ args, ∃ n, atoi s = Except.ok n) →
        runClose exec args =
          (none, args.filterMap fun s =>
            (atoi s).toOption.map ClosePayload.window)) := by
  refine ⟨?_, ?_, ?_⟩
  · cases hf : exec ClosePayload.front <;> simp [runClose, hf]
  · intro pre bad err rest hpre hbad
    rw [runClose_ne_nil exec _ (by simp),
      closeGo_ok_prefix exec hok pre (bad :: rest) [] hpre]
    simp only [closeGo, hbad]
    simp
  · intro args hne hall
    rw [runClose_ne_nil exec args hne]
    have h := closeGo_ok_prefix exec hok args [] [] hall
    rw [List.append_nil] at h
    rw [h, closeGo]
    simp

/-- Concrete close executor that accepts every close payload. -/
def execClose : ClosePayload → Except String String
  | _ => Except.ok ""

/-- Witness for `close_failfast`: on `["1", "x"]` one close for window 1
is issued before the syntax failure on `"x"` aborts; a single
out-of-range identifier aborts with the range error and issues no
close. -/
theorem close_failfast_witness :
    runClose execClose ["1", "x"] =
      (some (parseErrMsg "x"),
        ["1"].filterMap fun s => (atoi s).toOption.map ClosePayload.window)
    ∧ runClose execClose ["99999999999999999999"] =
      (some (rangeErrMsg "99999999999999999999"), []) :=
  ⟨(close_failfast execClose fun _ => ⟨"", rfl⟩).2.1 ["1"] "x"
      (parseErrMsg "x") []
      (by
        intro s hs
        rw [List.mem_singleton] at hs
        subst hs
        exact ⟨1, rfl⟩)
      rfl,
    (close_failfast execClose fun _ => ⟨"", rfl⟩).2.1 []
      "99999999999999999999" (rangeErrMsg "99999999999999999999") []
      (by intro s hs; exact absurd hs (List.not_mem_nil s))
      rfl⟩

end ArcSpec
